import Mathlib

/-!
Verification development for the QAMP batch test-case generation pipeline.

The repository ships the React/TypeScript frontend (notably
`frontend/src/api/client.ts` and `frontend/src/api/types.ts`) together with
documentation of the FastAPI backend; the backend sources themselves
(batch orchestrator, scenario deduplicator, token budget estimator, two-pass
generator) are not part of the available tree.  Definitions for those
components are therefore modelled from the specification, as indicated by
their doc comments; everything taken from `client.ts` / `types.ts` is a
direct translation of the TypeScript.
-/

namespace QAMP

/-- Per-feature status, from `FeatureResultStatus` in `frontend/src/api/types.ts`:
`"pending" | "generating" | "completed" | "failed"`. -/
inductive FStatus where
  | pending
  | generating
  | completed
  | failed
deriving DecidableEq

/-- Batch-level status, from `BatchStatusResponse.status` in
`frontend/src/api/types.ts`: `"pending" | "running" | "completed" | "partial"`
(the `"partial"` value is named `partialDone` here because `partial` is a
reserved word in Lean). -/
inductive BStatus where
  | pending
  | running
  | completed
  | partialDone
deriving DecidableEq

/-- A generated test case, from `TestCaseItem` in `frontend/src/api/types.ts`. -/
structure TestCaseItem where
  id : String
  test_scenario : String
  test_description : String
  pre_condition : String
  test_data : String
  test_steps : List String
  expected_result : String
  created_at : String
  created_by : Option String
deriving DecidableEq

/-- Per-feature slot of a batch, from `BatchFeatureResult` in
`frontend/src/api/types.ts`. -/
structure FeatureResult where
  feature_id : String
  feature_name : String
  status : FStatus
  items : Option (List TestCaseItem)
  error : Option String
deriving DecidableEq

/-- A batch snapshot, from `BatchStatusResponse` in `frontend/src/api/types.ts`. -/
structure BatchState where
  batch_id : String
  status : BStatus
  features : List FeatureResult
deriving DecidableEq

/-- Coverage level, from `CoverageLevel` in `frontend/src/api/types.ts`:
`"low" | "medium" | "high" | "comprehensive"`. -/
inductive CoverageLevel where
  | low
  | medium
  | high
  | comprehensive
deriving DecidableEq

/-- Feature configuration, from `FeatureConfigPayload` in
`frontend/src/api/types.ts`. -/
structure FeatureConfigPayload where
  feature_name : String
  feature_description : String
  allowed_actions : Option String := none
  excluded_features : Option String := none
  coverage_level : CoverageLevel := CoverageLevel.low
deriving DecidableEq

/-- Modelled from the spec: the error taxonomy of section 7 (`PromptTooLarge`,
`GenerationParseError`, `ProviderUnavailable`, `InvalidState`); the backend
module raising these is not in the available sources. -/
inductive ApiError where
  | promptTooLarge
  | generationParseError
  | providerUnavailable
  | invalidState
deriving DecidableEq

/-- Modelled from the spec: "Overall status is a pure function of the feature
statuses: `completed` iff all features `completed`; `partial` iff at least one
`failed` and none are `pending`/`generating`; otherwise `running`."  The
backend service computing it is not in the available sources. -/
def computeBatchStatus (frs : List FeatureResult) : BStatus :=
  if ∀ fr ∈ frs, fr.status = FStatus.completed then
    BStatus.completed
  else if (∃ fr ∈ frs, fr.status = FStatus.failed) ∧
      (∀ fr ∈ frs, fr.status ≠ FStatus.pending ∧ fr.status ≠ FStatus.generating) then
    BStatus.partialDone
  else
    BStatus.running

/-- Replace the element at position `i` (no-op when out of range). -/
def updateAt : List α → Nat → (α → α) → List α
  | [], _, _ => []
  | a :: l, 0, f => f a :: l
  | a :: l, n + 1, f => a :: updateAt l n f

/-- Update the feature slot at position `i` of a batch and recompute the
batch status from the new feature statuses. -/
def setSlot (s : BatchState) (i : Nat) (f : FeatureResult → FeatureResult) : BatchState :=
  { batch_id := s.batch_id
    status := computeBatchStatus (updateAt s.features i f)
    features := updateAt s.features i f }

/-- Modelled from the spec: a worker picking up its feature moves it
`pending → generating`. -/
def markGenerating (fr : FeatureResult) : FeatureResult :=
  { fr with status := FStatus.generating }

/-- Modelled from the spec: on success "the feature transitions to `completed`
with the final TestCase list". -/
def completeUpdate (items : List TestCaseItem) (fr : FeatureResult) : FeatureResult :=
  { fr with status := FStatus.completed, items := some items, error := none }

/-- Modelled from the spec: on an unrecoverable error "the feature transitions
to `failed` with the originating error message; partial results from a failed
feature are discarded". -/
def failUpdate (msg : String) (fr : FeatureResult) : FeatureResult :=
  { fr with status := FStatus.failed, items := none, error := some msg }

/-- Modelled from the spec: retry "transitions it to `generating` and launches
a fresh worker"; the slot is "never deleted, only replaced on retry". -/
def retryUpdate (fr : FeatureResult) : FeatureResult :=
  { fr with status := FStatus.generating, items := none, error := none }

/-- Modelled from the spec: `deleteResult` "removes a single TestCase from its
FeatureResult's list in place"; "the feature's status is unaffected". -/
def deleteUpdate (tid : String) (fr : FeatureResult) : FeatureResult :=
  { fr with items := fr.items.map (fun l => l.filter (fun tc => decide (¬ tc.id = tid))) }

/-- Modelled from the spec: the transition system of the Batch Orchestrator
(section 4.5, concurrency model of section 5).  Each step mutates exactly one
feature slot — "workers never write to each other's slots" — and the batch
status is recomputed as the pure function of the feature statuses.  The
constructors are: a worker starting on its pending feature, a worker
completing, a worker failing (the error is caught at the Two-Pass Generator
boundary and recorded on that slot), a user retry of a failed feature, and a
user deleting one test case from a completed feature. -/
inductive Step : BatchState → BatchState → Prop where
  | start (s : BatchState) (i : Nat) (fr : FeatureResult)
      (h : s.features[i]? = some fr) (hp : fr.status = FStatus.pending) :
      Step s (setSlot s i markGenerating)
  | complete (s : BatchState) (i : Nat) (fr : FeatureResult) (items : List TestCaseItem)
      (h : s.features[i]? = some fr) (hp : fr.status = FStatus.generating) :
      Step s (setSlot s i (completeUpdate items))
  | fail (s : BatchState) (i : Nat) (fr : FeatureResult) (msg : String)
      (h : s.features[i]? = some fr) (hp : fr.status = FStatus.generating) :
      Step s (setSlot s i (failUpdate msg))
  | retryStep (s : BatchState) (i : Nat) (fr : FeatureResult)
      (h : s.features[i]? = some fr) (hp : fr.status = FStatus.failed) :
      Step s (setSlot s i retryUpdate)
  | deleteCase (s : BatchState) (i : Nat) (fr : FeatureResult) (tid : String)
      (h : s.features[i]? = some fr) (hp : fr.status = FStatus.completed) :
      Step s (setSlot s i (deleteUpdate tid))

/-- Modelled from the spec: `startBatch` "creates a BatchState with all
FeatureResults in `pending`, then launches one concurrent worker per feature";
feature ids are assigned by the backend, modelled as positional indices. -/
def startBatch (bid : String) (cfgs : List FeatureConfigPayload) : BatchState :=
  let frs := ((List.range cfgs.length).zip cfgs).map fun p =>
    { feature_id := toString p.1
      feature_name := p.2.feature_name
      status := FStatus.pending
      items := none
      error := none : FeatureResult }
  { batch_id := bid, status := computeBatchStatus frs, features := frs }

/-- Transitions a FeatureResult status may take between two consecutive
snapshots: unchanged, a forward edge of
`pending → generating → (completed | failed)`, or the explicit retry edge
`failed → generating`. -/
def allowedTransition (a b : FStatus) : Prop :=
  b = a ∨
  (a = FStatus.pending ∧ b = FStatus.generating) ∨
  (a = FStatus.generating ∧ b = FStatus.completed) ∨
  (a = FStatus.generating ∧ b = FStatus.failed) ∨
  (a = FStatus.failed ∧ b = FStatus.generating)

/-- Modelled from the spec: `ScenarioCandidate` — "a short title + one-line
intent string produced by pass 1, tagged with its coverage layer and an
ordinal index (for stable tie-breaking during dedup)". -/
structure Candidate where
  title : String
  intent : String
  layer : String
  index : Nat
deriving DecidableEq

/-- Modelled from the spec: QA stopwords whose synonyms are collapsed during
title normalization ("verify", "check", "test that"); collapsing is modelled
by dropping these tokens. -/
def qaStopwords : List String := ["verify", "check", "ensure", "test", "that"]

/-- Split a character list into maximal runs of non-space characters
(collapsing whitespace runs), returning them as strings. -/
def splitRuns : List Char → List Char → List String
  | [], cur => if cur.isEmpty then [] else [String.mk cur.reverse]
  | c :: cs, cur =>
    if c = ' ' then
      (if cur.isEmpty then [] else [String.mk cur.reverse]) ++ splitRuns cs []
    else
      splitRuns cs (c :: cur)

/-- Modelled from the spec: the title normalization pass — "lower-case, strip
punctuation/whitespace runs, collapse synonyms of common QA stopwords".
Non-alphanumeric characters are mapped to spaces, the result is split into
tokens, and QA stopwords are dropped. -/
def normTokens (s : String) : List String :=
  let cleaned := s.toList.map fun c =>
    let lc := c.toLower
    if lc.isAlphanum then lc else ' '
  (splitRuns cleaned []).filter fun t => decide (¬ t ∈ qaStopwords)

/-- The normalized form of a title: its normalized tokens re-joined. -/
def normTitle (s : String) : String :=
  String.intercalate " " (normTokens s)

/-- Modelled from the spec: token-set similarity ratio (0–100) between two
normalized token lists, computed on the underlying token sets
(intersection over union). -/
def tokenSetRatio (a b : List String) : Nat :=
  let sa := a.eraseDups
  let sb := b.eraseDups
  let inter := sa.filter fun t => decide (t ∈ sb)
  let union := sa ++ sb.filter fun t => decide (¬ t ∈ sa)
  if union.length = 0 then 100 else inter.length * 100 / union.length

/-- Modelled from the spec: "two candidates with normalized-title similarity
above a fixed threshold (token-set ratio ≥ 0.85) are considered duplicates". -/
def simTitle (a b : Candidate) : Bool :=
  decide (85 ≤ tokenSetRatio (normTokens a.title) (normTokens b.title))

/-- Integer dot product of two embedding vectors. -/
def dotProd : List Int → List Int → Int
  | x :: xs, y :: ys => x * y + dotProd xs ys
  | _, _ => 0

/-- Modelled from the spec: "any pair with cosine similarity ≥ a fixed
threshold (e.g. 0.92) is collapsed".  Over integer vectors,
`cos(u,v) ≥ 0.92` is expressed without square roots as
`u·v ≥ 0 ∧ 8464·(u·u)·(v·v) ≤ 10000·(u·v)²` (since `0.92² = 0.8464`). -/
def cosineGE92 (u v : List Int) : Bool :=
  decide (0 ≤ dotProd u v ∧
    8464 * (dotProd u u * dotProd v v) ≤ 10000 * (dotProd u v * dotProd u v))

/-- The text embedded for a candidate: "the scenario title + one-line intent". -/
def candText (c : Candidate) : String := c.title ++ " " ++ c.intent

/-- The text embedded for a full test case during the final pass. -/
def caseText (tc : TestCaseItem) : String := tc.test_scenario ++ " " ++ tc.test_description

/-- Modelled from the spec: the greedy duplicate-removal core shared by both
deduplication passes — scan the list in order, keep an item iff it is not
similar to any earlier kept item ("the earlier-indexed candidate is kept",
"keeping the first-seen item"); `kept` accumulates the survivors so far. -/
def dedupKeep (sim : α → α → Bool) : List α → List α → List α
  | _, [] => []
  | kept, c :: cs =>
    if kept.any fun k => sim k c then dedupKeep sim kept cs
    else c :: dedupKeep sim (kept ++ [c]) cs

/-- Run the greedy duplicate removal from an empty kept list. -/
def dedupBy (sim : α → α → Bool) (l : List α) : List α :=
  dedupKeep sim [] l

/-- Modelled from the spec: pass 1 of the Scenario Deduplicator, the title
normalization pass over scenario candidates. -/
def titlePass (C : List Candidate) : List Candidate :=
  dedupBy simTitle C

/-- Modelled from the spec: pass 2 of the Scenario Deduplicator over
candidates — embed `title + intent` (via the given embedding function, the
external embedding provider) and collapse pairs with cosine ≥ 0.92. -/
def candEmbedPass (embed : String → List Int) (C : List Candidate) : List Candidate :=
  dedupBy (fun a b => cosineGE92 (embed (candText a)) (embed (candText b))) C

/-- Modelled from the spec: the full Scenario Deduplicator over a candidate
list — title pass first ("title matching is cheap and should prune before the
expensive embedding pass"), then the embedding pass. -/
def dedupScenarios (embed : String → List Int) (C : List Candidate) : List Candidate :=
  candEmbedPass embed (titlePass C)

/-- Modelled from the spec: the embedding pass over full test cases, used as
the final guard after expansion (step 4 of the Two-Pass Generator). -/
def casePass (embed : String → List Int) (l : List TestCaseItem) : List TestCaseItem :=
  dedupBy (fun a b => cosineGE92 (embed (caseText a)) (embed (caseText b))) l

/-- Modelled from the spec: the Token Budget Estimator's input-size estimate —
"a conservative character-to-token ratio that over-estimates input size",
modelled as one token per three characters, rounded up. -/
def estimatedInputTokens (prompt : String) : Nat :=
  (prompt.length + 2) / 3

/-- Modelled from the spec: the "fixed safety margin (e.g. 10–15%)" reserved
for formatting overhead. -/
def safetyMarginPercent : Nat := 15

/-- Modelled from the spec: "a minimum viable output size (enough tokens for
at least one well-formed test case)". -/
def minViableOutputTokens : Nat := 200

/-- Modelled from the spec: `estimate(prompt_text, model_context_window) ->
max_output_tokens` — the safe output ceiling is the context window minus the
estimated input, reduced by the safety margin; when that ceiling falls below
the minimum viable output size the estimator "fails fast with a
`PromptTooLarge` condition". -/
def estimate (prompt : String) (ctxWindow : Nat) : Except ApiError Nat :=
  if (ctxWindow - estimatedInputTokens prompt) * (100 - safetyMarginPercent) / 100 <
      minViableOutputTokens then
    Except.error ApiError.promptTooLarge
  else
    Except.ok ((ctxWindow - estimatedInputTokens prompt) * (100 - safetyMarginPercent) / 100)

/-- Modelled from the spec: the fixed ordered list of coverage layers; "the
set of layers actually explored is a prefix of a fixed ordered list, sized by
coverage level". -/
def coverageLayers : List String :=
  ["core flow", "validation", "negative", "boundary", "state transition",
   "security", "destructive"]

/-- Modelled from the spec: how many coverage layers each coverage level
explores (`low` uses 1 layer, per the section 8 scenario; the remaining
counts are unconstrained implementation constants). -/
def layersFor : CoverageLevel → Nat
  | CoverageLevel.low => 1
  | CoverageLevel.medium => 3
  | CoverageLevel.high => 5
  | CoverageLevel.comprehensive => 7

/-- Modelled from the spec: how many scenario titles are requested per layer
(`low` requests 3 titles, per the section 8 scenario). -/
def titlesFor : CoverageLevel → Nat
  | CoverageLevel.low => 3
  | CoverageLevel.medium => 5
  | CoverageLevel.high => 6
  | CoverageLevel.comprehensive => 8

/-- Modelled from the spec: the Provider Capability interface —
`generateTitles(feature, layer, count) -> ScenarioCandidate[]` and
`expandScenarios(feature, candidates) -> TestCase[]`; a value of this type is
one fixed provider response function. -/
structure ProviderFn where
  generateTitles : String → String → Nat → List Candidate
  expandScenarios : String → List Candidate → List TestCaseItem

/-- Modelled from the spec: the Two-Pass Test Case Generator (section 4.4) —
gather titles per coverage layer, deduplicate the accumulated candidates with
the title pass only, size the expansion call via the Token Budget Estimator
on the concatenated candidate titles, expand, and run the embedding pass over
the resulting test cases as a final guard. -/
def twoPassGenerate (p : ProviderFn) (embed : String → List Int) (ctxWindow : Nat)
    (desc : String) (lvl : CoverageLevel) : Except ApiError (List TestCaseItem) :=
  let layers := coverageLayers.take (layersFor lvl)
  let cands := (layers.map fun L => p.generateTitles desc L (titlesFor lvl)).flatten
  let deduped := titlePass cands
  match estimate (String.intercalate "\n" (deduped.map Candidate.title)) ctxWindow with
  | Except.error e => Except.error e
  | Except.ok _ => Except.ok (casePass embed (p.expandScenarios desc deduped))

/-- Modelled from the spec: the Batch Orchestrator's in-memory store of
batches, keyed by batch id ("ad hoc in-memory dictionaries for batch/feature
state"). -/
abbrev Orch := List (String × BatchState)

/-- The orchestrator state after a successful retry: batch at position `k`
has its feature slot at position `i` reset by `retryUpdate`. -/
def retrySuccessor (orch : Orch) (k i : Nat) : Orch :=
  updateAt orch k fun p => (p.1, setSlot p.2 i retryUpdate)

/-- Modelled from the spec: `retryFeature(batch_id, feature_id)` — "only valid
when that feature's status is `failed`; transitions it to `generating` …
leaving all other features untouched.  Fails with `InvalidState` if the
feature is not `failed` … or if the batch id is unknown." -/
def retryFeature (orch : Orch) (bid fid : String) : Except ApiError Orch :=
  match orch.findIdx? (fun p => decide (p.1 = bid)) with
  | none => Except.error ApiError.invalidState
  | some k =>
    match orch[k]? with
    | none => Except.error ApiError.invalidState
    | some pb =>
      match pb.2.features.findIdx? (fun f => decide (f.feature_id = fid)) with
      | none => Except.error ApiError.invalidState
      | some i =>
        match pb.2.features[i]? with
        | none => Except.error ApiError.invalidState
        | some fr =>
          if fr.status = FStatus.failed then Except.ok (retrySuccessor orch k i)
          else Except.error ApiError.invalidState

/-- Whether a feature slot currently holds a test case with the given id. -/
def containsCase (fr : FeatureResult) (tid : String) : Bool :=
  match fr.items with
  | some l => l.any fun tc => decide (tc.id = tid)
  | none => false

/-- Remove the test case with the given id from whichever feature slot of the
batch holds it (slots not holding it are untouched); the batch status is
recomputed from the (unchanged) feature statuses. -/
def batchDelete (bs : BatchState) (tid : String) : BatchState :=
  let frs := bs.features.map fun fr =>
    if containsCase fr tid then deleteUpdate tid fr else fr
  { batch_id := bs.batch_id, status := computeBatchStatus frs, features := frs }

/-- The orchestrator state after a successful `deleteResult`. -/
def deleteSuccessor (orch : Orch) (tid : String) : Orch :=
  orch.map fun p => (p.1, batchDelete p.2 tid)

/-- Modelled from the spec: `deleteResult(test_case_id)` — "removes a single
TestCase from its FeatureResult's list in place …; the feature's status is
unaffected"; an unknown test case id is a malformed call and surfaces as
`InvalidState` (section 7). -/
def deleteResult (orch : Orch) (tid : String) : Except ApiError Orch :=
  if orch.any (fun p => p.2.features.any fun fr => containsCase fr tid) then
    Except.ok (deleteSuccessor orch tid)
  else Except.error ApiError.invalidState

/-- Payload shape for export-to-excel, from `ExportToExcelTestCase` in
`frontend/src/api/client.ts` (lines 16–23). -/
structure ExportToExcelTestCase where
  testScenario : String
  description : String
  precondition : String
  testData : String
  testSteps : String
  expectedResult : String
deriving DecidableEq

/-- The runtime value found in a `TestCaseItem`'s `test_steps` field as seen
by `itemToExportPayload`: a genuine array of strings, a nullish value
(`null`/`undefined`), or any other value carried as its JavaScript `String()`
image. -/
inductive StepsVal where
  | arr (xs : List String)
  | nullish
  | other (str : String)
deriving DecidableEq

/-- A `TestCaseItem` as it reaches `itemToExportPayload` at runtime: every
text field may be nullish (the TypeScript body defends each field with
`?? ""`), modelled with `Option String` where `none` is `null`/`undefined`. -/
structure TestCaseItemJs where
  id : String
  test_scenario : Option String
  test_description : Option String
  pre_condition : Option String
  test_data : Option String
  test_steps : StepsVal
  expected_result : Option String
  created_at : String
  created_by : Option String
deriving DecidableEq

/-- Translation of `itemToExportPayload` from `frontend/src/api/client.ts`
(lines 25–34): each text field is `item.<field> ?? ""`, and `testSteps` is
`Array.isArray(item.test_steps) ? item.test_steps.join(" | ") :
String(item.test_steps ?? "")`. -/
def itemToExportPayload (item : TestCaseItemJs) : ExportToExcelTestCase :=
  { testScenario := item.test_scenario.getD ""
    description := item.test_description.getD ""
    precondition := item.pre_condition.getD ""
    testData := item.test_data.getD ""
    testSteps :=
      match item.test_steps with
      | StepsVal.arr xs => String.intercalate " | " xs
      | StepsVal.nullish => ""
      | StepsVal.other s => s
    expectedResult := item.expected_result.getD "" }

/-- A text field with null or undefined replaced by the empty string, as the
claim words it. -/
def blankIfNullish (v : Option String) : String :=
  match v with
  | none => ""
  | some s => s

/-- The `testSteps` text as the claim words it: the elements joined with
`" | "` when the field is an array, and `String(test_steps ?? "")`
otherwise. -/
def stepsText (v : StepsVal) : String :=
  match v with
  | StepsVal.arr xs => String.intercalate " | " xs
  | StepsVal.nullish => ""
  | StepsVal.other s => s

/-- The export payload as described field by field by the claim about
`itemToExportPayload`. -/
def exportPayloadClaim (item : TestCaseItemJs) : ExportToExcelTestCase :=
  { testScenario := blankIfNullish item.test_scenario
    description := blankIfNullish item.test_description
    precondition := blankIfNullish item.pre_condition
    testData := blankIfNullish item.test_data
    testSteps := stepsText item.test_steps
    expectedResult := blankIfNullish item.expected_result }

/-- A JSON value as produced by JavaScript's `JSON.parse`; numbers keep their
literal text (their exact numeric value plays no role in `handleError`). -/
inductive Json where
  | null
  | bool (b : Bool)
  | num (raw : String)
  | str (s : String)
  | arr (elems : List Json)
  | obj (fields : List (String × Json))

/-- Whether a JSON value is `null`. -/
def isNull : Json → Bool
  | Json.null => true
  | _ => false

/-- Skip JSON whitespace. -/
def skipWs : List Char → List Char
  | c :: cs =>
    if c = ' ' ∨ c = '\t' ∨ c = '\n' ∨ c = '\r' then skipWs cs else c :: cs
  | [] => []

/-- Numeric value of a hexadecimal digit. -/
def hexVal (c : Char) : Option Nat :=
  if '0' ≤ c ∧ c ≤ '9' then some (c.toNat - '0'.toNat)
  else if 'a' ≤ c ∧ c ≤ 'f' then some (c.toNat - 'a'.toNat + 10)
  else if 'A' ≤ c ∧ c ≤ 'F' then some (c.toNat - 'A'.toNat + 10)
  else none

/-- Parse the body of a JSON string literal (after the opening quote),
handling the JSON escape sequences; `acc` holds the characters read so far in
reverse. -/
def parseStringBody : List Char → List Char → Option (String × List Char)
  | '"' :: cs, acc => some (String.mk acc.reverse, cs)
  | '\\' :: '"' :: cs, acc => parseStringBody cs ('"' :: acc)
  | '\\' :: '\\' :: cs, acc => parseStringBody cs ('\\' :: acc)
  | '\\' :: '/' :: cs, acc => parseStringBody cs ('/' :: acc)
  | '\\' :: 'b' :: cs, acc => parseStringBody cs (Char.ofNat 8 :: acc)
  | '\\' :: 'f' :: cs, acc => parseStringBody cs (Char.ofNat 12 :: acc)
  | '\\' :: 'n' :: cs, acc => parseStringBody cs ('\n' :: acc)
  | '\\' :: 'r' :: cs, acc => parseStringBody cs ('\r' :: acc)
  | '\\' :: 't' :: cs, acc => parseStringBody cs ('\t' :: acc)
  | '\\' :: 'u' :: h1 :: h2 :: h3 :: h4 :: cs, acc =>
    match hexVal h1, hexVal h2, hexVal h3, hexVal h4 with
    | some a, some b, some c, some d =>
      parseStringBody cs (Char.ofNat (((a * 16 + b) * 16 + c) * 16 + d) :: acc)
    | _, _, _, _ => none
  | '\\' :: _, _ => none
  | c :: cs, acc => if c.toNat < 32 then none else parseStringBody cs (c :: acc)
  | [], _ => none

/-- Take the maximal run of leading decimal digits. -/
def spanDigits : List Char → List Char × List Char
  | c :: cs =>
    if c.isDigit then
      let p := spanDigits cs
      (c :: p.1, p.2)
    else ([], c :: cs)
  | [] => ([], [])

/-- Parse a JSON number literal (grammar:
`-? (0 | [1-9][0-9]*) (. [0-9]+)? ([eE][+-]?[0-9]+)?`), returning its literal
text. -/
def parseNumber (cs : List Char) : Option (String × List Char) :=
  let signPart : List Char × List Char :=
    match cs with
    | '-' :: r => (['-'], r)
    | _ => ([], cs)
  match signPart.2 with
  | [] => none
  | c :: r =>
    if ¬ c.isDigit then none
    else
      let intPart : List Char × List Char :=
        if c = '0' then (['0'], r)
        else
          let p := spanDigits r
          (c :: p.1, p.2)
      let fracPart : Option (List Char × List Char) :=
        match intPart.2 with
        | '.' :: r2 =>
          let p := spanDigits r2
          if p.1.isEmpty then none else some ('.' :: p.1, p.2)
        | _ => some ([], intPart.2)
      match fracPart with
      | none => none
      | some fp =>
        let expPart : Option (List Char × List Char) :=
          match fp.2 with
          | 'e' :: r3 =>
            match r3 with
            | '+' :: r4 =>
              let p := spanDigits r4
              if p.1.isEmpty then none else some ('e' :: '+' :: p.1, p.2)
            | '-' :: r4 =>
              let p := spanDigits r4
              if p.1.isEmpty then none else some ('e' :: '-' :: p.1, p.2)
            | _ =>
              let p := spanDigits r3
              if p.1.isEmpty then none else some ('e' :: p.1, p.2)
          | 'E' :: r3 =>
            match r3 with
            | '+' :: r4 =>
              let p := spanDigits r4
              if p.1.isEmpty then none else some ('E' :: '+' :: p.1, p.2)
            | '-' :: r4 =>
              let p := spanDigits r4
              if p.1.isEmpty then none else some ('E' :: '-' :: p.1, p.2)
            | _ =>
              let p := spanDigits r3
              if p.1.isEmpty then none else some ('E' :: p.1, p.2)
          | _ => some ([], fp.2)
        match expPart with
        | none => none
        | some ep =>
          some (String.mk (signPart.1 ++ intPart.1 ++ fp.1 ++ ep.1), ep.2)

mutual

/-- Fuel-bounded recursive-descent parser for a JSON value, modelling
JavaScript's `JSON.parse`. -/
def parseVal : Nat → List Char → Option (Json × List Char)
  | 0, _ => none
  | fuel + 1, cs =>
    match skipWs cs with
    | 'n' :: 'u' :: 'l' :: 'l' :: rest => some (Json.null, rest)
    | 't' :: 'r' :: 'u' :: 'e' :: rest => some (Json.bool true, rest)
    | 'f' :: 'a' :: 'l' :: 's' :: 'e' :: rest => some (Json.bool false, rest)
    | '"' :: rest =>
      match parseStringBody rest [] with
      | some p => some (Json.str p.1, p.2)
      | none => none
    | '[' :: rest =>
      match skipWs rest with
      | ']' :: r2 => some (Json.arr [], r2)
      | r2 =>
        match parseArrItems fuel r2 with
        | some p => some (Json.arr p.1, p.2)
        | none => none
    | '\x7b' :: rest =>
      match skipWs rest with
      | '\x7d' :: r2 => some (Json.obj [], r2)
      | r2 =>
        match parseObjItems fuel r2 with
        | some p => some (Json.obj p.1, p.2)
        | none => none
    | rest =>
      match parseNumber rest with
      | some p => some (Json.num p.1, p.2)
      | none => none

/-- Parse the comma-separated items of a non-empty JSON array, up to and
including the closing bracket. -/
def parseArrItems : Nat → List Char → Option (List Json × List Char)
  | 0, _ => none
  | fuel + 1, cs =>
    match parseVal fuel cs with
    | none => none
    | some (v, r) =>
      match skipWs r with
      | ',' :: r2 =>
        match parseArrItems fuel r2 with
        | some p => some (v :: p.1, p.2)
        | none => none
      | ']' :: r2 => some ([v], r2)
      | _ => none

/-- Parse the comma-separated members of a non-empty JSON object, up to and
including the closing brace. -/
def parseObjItems : Nat → List Char → Option (List (String × Json) × List Char)
  | 0, _ => none
  | fuel + 1, cs =>
    match skipWs cs with
    | '"' :: r =>
      match parseStringBody r [] with
      | none => none
      | some (k, r1) =>
        match skipWs r1 with
        | ':' :: r2 =>
          match parseVal fuel r2 with
          | none => none
          | some (v, r3) =>
            match skipWs r3 with
            | ',' :: r4 =>
              match parseObjItems fuel r4 with
              | some p => some ((k, v) :: p.1, p.2)
              | none => none
            | '\x7d' :: r4 => some ([(k, v)], r4)
            | _ => none
        | _ => none
    | _ => none

end

/-- Model of JavaScript's `JSON.parse` over a whole body string: `none` when
`JSON.parse` would throw a `SyntaxError`. -/
def jsonParse (s : String) : Option Json :=
  match parseVal (s.length + 1) s.toList with
  | some (j, rest) => if (skipWs rest).isEmpty then some j else none
  | none => none

/-- JavaScript object property lookup on parsed JSON: the last duplicate key
wins, as in `JSON.parse`. -/
def lookupLast (fields : List (String × Json)) (k : String) : Option Json :=
  fields.foldl (fun acc f => if f.1 = k then some f.2 else acc) none

/-- Property access `j[k]` on a parsed JSON value, total for non-null values:
`none` models `undefined` (missing key, or access on a primitive). -/
def propLookup (j : Json) (k : String) : Option Json :=
  match j with
  | Json.obj fields => lookupLast fields k
  | _ => none

/-- Property access `j[k]` as an effectful JavaScript operation: accessing a
property of `null` throws a `TypeError`. -/
def getProp (j : Json) (k : String) : Except Unit (Option Json) :=
  match j with
  | Json.null => Except.error ()
  | Json.obj fields => Except.ok (lookupLast fields k)
  | _ => Except.ok none

mutual

/-- JavaScript's `String()` conversion on a parsed JSON value (`Array.join`
renders each element with `String()`). -/
def jsToString : Json → String
  | Json.null => "null"
  | Json.bool true => "true"
  | Json.bool false => "false"
  | Json.num raw => raw
  | Json.str s => s
  | Json.arr xs => String.intercalate "," (jsArrParts xs)
  | Json.obj _ => "[object Object]"

/-- The parts `Array.prototype.toString` joins with commas: `null` elements
render as the empty string. -/
def jsArrParts : List Json → List String
  | [] => []
  | Json.null :: xs => "" :: jsArrParts xs
  | x :: xs => jsToString x :: jsArrParts xs

end

/-- The text contributed by one `detail` entry `d` of `handleError`:
`d.msg ?? ""`, rendered by `Array.join` (missing or null `msg` becomes the
empty string). -/
def msgText (d : Json) : String :=
  match propLookup d "msg" with
  | none => ""
  | some Json.null => ""
  | some v => jsToString v

/-- `d.msg ?? ""` as the effectful JavaScript map callback of `handleError`:
a `null` entry throws a `TypeError` when its `msg` property is read. -/
def entryMsg (d : Json) : Except Unit String :=
  match d with
  | Json.null => Except.error ()
  | d => Except.ok (msgText d)

/-- Evaluate `handleError`'s map callback across the `detail` array,
propagating a thrown `TypeError`. -/
def mapEntries : List Json → Except Unit (List String)
  | [] => Except.ok []
  | d :: ds =>
    match entryMsg d with
    | Except.error e => Except.error e
    | Except.ok m =>
      match mapEntries ds with
      | Except.error e => Except.error e
      | Except.ok ms => Except.ok (m :: ms)

/-- The initial message of `handleError`: `` `Request failed (${res.status})` ``. -/
def defaultMessage (status : Nat) : String :=
  "Request failed (" ++ toString status ++ ")"

/-- The `try` block of `handleError` (`frontend/src/api/client.ts` lines
45–51): parse the body, inspect `json.detail`, and produce the message;
`Except.error` models a thrown exception reaching the `catch`. -/
def tryMessage (status : Nat) (body : String) : Except Unit String :=
  match jsonParse body with
  | none => Except.error ()
  | some j =>
    match getProp j "detail" with
    | Except.error e => Except.error e
    | Except.ok (some (Json.str s)) => Except.ok s
    | Except.ok (some (Json.arr xs)) =>
      match mapEntries xs with
      | Except.error e => Except.error e
      | Except.ok msgs => Except.ok (String.intercalate "; " msgs)
    | Except.ok _ => Except.ok (defaultMessage status)

/-- The message of the `Error` thrown by `handleError`: the `try` block's
message when no exception was thrown, otherwise the `catch` branch
(`if (body) message = body.slice(0, 200)` over the default). -/
def errMessage (status : Nat) (body : String) : String :=
  match tryMessage status body with
  | Except.ok m => m
  | Except.error _ => if body.isEmpty then defaultMessage status else body.take 200

/-- Translation of `handleError` from `frontend/src/api/client.ts` (lines
42–53): it never returns normally (`Promise<never>`), modelled as always
producing `Except.error` carrying the thrown `Error`'s message. -/
def handleError (status : Nat) (body : String) : Except String Unit :=
  Except.error (errMessage status body)

/-- The thrown message as the amended claim describes it, case by case: the
string `detail` of the parsed body; the joined `msg` fields when `detail` is
an array without null entries; the first 200 characters of a non-empty body
when `JSON.parse` throws, when the body parses to `null`, or when a null
array entry makes the property access throw; the default
`Request failed (<status>)` when the body is empty in those throwing cases or
when the body parses as JSON whose `detail` is neither a string nor an
array. -/
def specMessage (status : Nat) (body : String) : String :=
  match jsonParse body with
  | none => if body.isEmpty then defaultMessage status else body.take 200
  | some Json.null => if body.isEmpty then defaultMessage status else body.take 200
  | some j =>
    match propLookup j "detail" with
    | some (Json.str s) => s
    | some (Json.arr xs) =>
      if xs.any isNull then
        if body.isEmpty then defaultMessage status else body.take 200
      else String.intercalate "; " (xs.map msgText)
    | _ => defaultMessage status

/-! Concrete fixtures used by the scenario claims and witnesses. -/

/-- Feature configurations for the three-feature isolation scenario. -/
def demoCfgs : List FeatureConfigPayload :=
  [{ feature_name := "A", feature_description := "da" },
   { feature_name := "B", feature_description := "db" },
   { feature_name := "C", feature_description := "dc" }]

/-- The three-feature batch right after `startBatch`. -/
def demo0 : BatchState := startBatch "batch1" demoCfgs

/-- Worker for feature 0 starts. -/
def demo1 : BatchState := setSlot demo0 0 markGenerating

/-- Worker for feature 1 starts. -/
def demo2 : BatchState := setSlot demo1 1 markGenerating

/-- Worker for feature 2 starts. -/
def demo3 : BatchState := setSlot demo2 2 markGenerating

/-- A test case produced for feature 0. -/
def demoCaseA : TestCaseItem :=
  { id := "tcA", test_scenario := "sa", test_description := "", pre_condition := ""
    test_data := "", test_steps := [], expected_result := "", created_at := "t0"
    created_by := none }

/-- A test case produced for feature 2. -/
def demoCaseC : TestCaseItem :=
  { id := "tcC", test_scenario := "sc", test_description := "", pre_condition := ""
    test_data := "", test_steps := [], expected_result := "", created_at := "t0"
    created_by := none }

/-- Feature 0 completes. -/
def demo4 : BatchState := setSlot demo3 0 (completeUpdate [demoCaseA])

/-- Feature 1's provider call fails; the error is recorded on that slot. -/
def demo5 : BatchState := setSlot demo4 1 (failUpdate "provider unavailable")

/-- Feature 2 completes. -/
def demo6 : BatchState := setSlot demo5 2 (completeUpdate [demoCaseC])

/-- Description keying the scenario provider's responses for feature A. -/
def descA : String := "feature A"

/-- Description keying the scenario provider's responses for feature B. -/
def descB : String := "feature B"

/-- The fixed provider response of the section 8 scenario: 3 title-distinct
candidates for feature A; 3 candidates for feature B of which the first two
normalize to the same title; expansion turns each surviving candidate into
one test case. -/
def providerScenario : ProviderFn :=
  { generateTitles := fun d L _n =>
      if d = descA then
        [{ title := "alpha beta", intent := "ia1", layer := L, index := 0 },
         { title := "gamma delta", intent := "ia2", layer := L, index := 1 },
         { title := "eps zeta", intent := "ia3", layer := L, index := 2 }]
      else
        [{ title := "Verify login", intent := "ib1", layer := L, index := 0 },
         { title := "Check login", intent := "ib2", layer := L, index := 1 },
         { title := "reject password", intent := "ib3", layer := L, index := 2 }]
    expandScenarios := fun _d cs => cs.map fun c =>
      { id := "tc-" ++ c.title, test_scenario := c.title, test_description := c.intent
        pre_condition := "", test_data := "", test_steps := [], expected_result := ""
        created_at := "t0", created_by := none } }

/-- The scenario embedding: each expanded case maps to a distinct basis
vector, so no pair reaches cosine 0.92 and the embedding pass removes
nothing. -/
def embedScenario : String → List Int := fun s =>
  if s = "alpha beta ia1" then [1, 0, 0, 0, 0]
  else if s = "gamma delta ia2" then [0, 1, 0, 0, 0]
  else if s = "eps zeta ia3" then [0, 0, 1, 0, 0]
  else if s = "Verify login ib1" then [0, 0, 0, 1, 0]
  else if s = "reject password ib3" then [0, 0, 0, 0, 1]
  else [1, 1, 1, 1, 1]

/-- Failed feature slot of the retry witness batch. -/
def wFr0 : FeatureResult :=
  { feature_id := "f0", feature_name := "A", status := FStatus.failed
    items := none, error := some "boom" }

/-- Completed feature slot of the retry witness batch. -/
def wFr1 : FeatureResult :=
  { feature_id := "f1", feature_name := "B", status := FStatus.completed
    items := some [], error := none }

/-- Batch of the retry witness, holding a failed and a completed feature. -/
def wBatch : BatchState :=
  { batch_id := "b1"
    status := computeBatchStatus [wFr0, wFr1]
    features := [wFr0, wFr1] }

/-- Orchestrator with one batch holding a failed and a completed feature. -/
def wOrch : Orch := [("b1", wBatch)]

/-- First test case of the deletion witness. -/
def dCase1 : TestCaseItem :=
  { id := "tc1", test_scenario := "s1", test_description := "", pre_condition := ""
    test_data := "", test_steps := [], expected_result := "", created_at := "t0"
    created_by := none }

/-- Second test case of the deletion witness. -/
def dCase2 : TestCaseItem :=
  { id := "tc2", test_scenario := "s2", test_description := "", pre_condition := ""
    test_data := "", test_steps := [], expected_result := "", created_at := "t0"
    created_by := none }

/-- Completed feature slot holding both witness test cases. -/
def dFr0 : FeatureResult :=
  { feature_id := "g0", feature_name := "X", status := FStatus.completed
    items := some [dCase1, dCase2], error := none }

/-- Sibling completed feature slot without the deleted id. -/
def dFr1 : FeatureResult :=
  { feature_id := "g1", feature_name := "Y", status := FStatus.completed
    items := some [], error := none }

/-- The batch of the deletion witness. -/
def dBatch : BatchState :=
  { batch_id := "b2"
    status := computeBatchStatus [dFr0, dFr1]
    features := [dFr0, dFr1] }

/-- Orchestrator of the deletion witness. -/
def dOrch : Orch := [("b2", dBatch)]

/-! ## Lemmas about `updateAt` -/

theorem updateAt_length (l : List α) (i : Nat) (f : α → α) :
    (updateAt l i f).length = l.length := by
  induction l generalizing i with
  | nil => rfl
  | cons a l ih =>
    cases i with
    | zero => rfl
    | succ n => simp [updateAt, ih]

theorem getElem?_updateAt_ne (l : List α) (i j : Nat) (f : α → α) (h : j ≠ i) :
    (updateAt l i f)[j]? = l[j]? := by
  induction l generalizing i j with
  | nil => rfl
  | cons a l ih =>
    cases i with
    | zero =>
      cases j with
      | zero => exact absurd rfl h
      | succ m => simp [updateAt]
    | succ n =>
      cases j with
      | zero => simp [updateAt]
      | succ m =>
        simp only [updateAt, List.getElem?_cons_succ]
        exact ih n m (fun hc => h (by rw [hc]))

theorem getElem?_updateAt_eq (l : List α) (i : Nat) (f : α → α) :
    (updateAt l i f)[i]? = l[i]?.map f := by
  induction l generalizing i with
  | nil => rfl
  | cons a l ih =>
    cases i with
    | zero => simp [updateAt]
    | succ n => simpa [updateAt] using ih n

/-! ## Lemmas about the greedy deduplication core -/

theorem dedupKeep_sublist (sim : α → α → Bool) (l : List α) :
    ∀ kept, List.Sublist (dedupKeep sim kept l) l := by
  induction l with
  | nil => intro kept; simp [dedupKeep]
  | cons c cs ih =>
    intro kept
    by_cases h : kept.any fun k => sim k c
    · simp only [dedupKeep, h, if_pos]
      exact (ih kept).trans (List.sublist_cons_self c cs)
    · simp only [dedupKeep, h, if_neg, Bool.false_eq_true, not_false_iff]
      exact List.Sublist.cons₂ c (ih (kept ++ [c]))

theorem dedupKeep_clean (sim : α → α → Bool) (l : List α) :
    ∀ kept, (dedupKeep sim kept l).Pairwise (fun a b => sim a b = false) ∧
      ∀ k ∈ kept, ∀ c ∈ dedupKeep sim kept l, sim k c = false := by
  induction l with
  | nil => intro kept; simp [dedupKeep]
  | cons c cs ih =>
    intro kept
    by_cases h : kept.any fun k => sim k c
    · simpa only [dedupKeep, h, if_pos] using ih kept
    · have hk : ∀ k ∈ kept, sim k c = false := by
        intro k hkm
        by_contra hkc
        exact h (List.any_eq_true.mpr ⟨k, hkm, by
          cases hsim : sim k c with
          | false => exact absurd hsim hkc
          | true => rfl⟩)
      have ih2 := ih (kept ++ [c])
      simp only [dedupKeep, h, if_neg, Bool.false_eq_true, not_false_iff]
      constructor
      · refine List.Pairwise.cons ?_ ih2.1
        intro b hb
        exact ih2.2 c (by simp) b hb
      · intro k hkm d hd
        rcases List.mem_cons.mp hd with hd | hd
        · rw [hd]; exact hk k hkm
        · exact ih2.2 k (List.mem_append_left _ hkm) d hd

theorem dedupKeep_of_clean (sim : α → α → Bool) (l : List α) :
    ∀ kept, (∀ k ∈ kept, ∀ c ∈ l, sim k c = false) →
      l.Pairwise (fun a b => sim a b = false) → dedupKeep sim kept l = l := by
  induction l with
  | nil => intro kept _ _; rfl
  | cons c cs ih =>
    intro kept hkept hpw
    have hany : (kept.any fun k => sim k c) = false := by
      rw [List.any_eq_false]
      intro k hkm
      simp [hkept k hkm c (List.mem_cons_self c cs)]
    simp only [dedupKeep, hany, Bool.false_eq_true, if_neg, not_false_iff]
    congr 1
    apply ih (kept ++ [c])
    · intro k hkm d hd
      rcases List.mem_append.mp hkm with hkm | hkm
      · exact hkept k hkm d (List.mem_cons_of_mem c hd)
      · have : k = c := by simpa using hkm
        rw [this]
        exact (List.pairwise_cons.mp hpw).1 d hd
    · exact (List.pairwise_cons.mp hpw).2

theorem dedupBy_pairwise (sim : α → α → Bool) (l : List α) :
    (dedupBy sim l).Pairwise (fun a b => sim a b = false) :=
  (dedupKeep_clean sim l []).1

theorem dedupBy_sublist (sim : α → α → Bool) (l : List α) :
    List.Sublist (dedupBy sim l) l :=
  dedupKeep_sublist sim l []

theorem dedupBy_eq_self_of_pairwise (sim : α → α → Bool) (l : List α)
    (h : l.Pairwise fun a b => sim a b = false) : dedupBy sim l = l :=
  dedupKeep_of_clean sim l [] (by intro k hk; cases hk) h

theorem dedupBy_idem (sim : α → α → Bool) (l : List α) :
    dedupBy sim (dedupBy sim l) = dedupBy sim l :=
  dedupBy_eq_self_of_pairwise sim (dedupBy sim l) (dedupBy_pairwise sim l)

/-- C5: the Scenario Deduplicator (title pass followed by embedding pass) is
idempotent — `dedup(dedup(C)) = dedup(C)` for every candidate list `C` and
every embedding function — and, being a pure function, it is deterministic:
the same input always yields the same output. -/
theorem dedupScenarios_idempotent (embed : String → List Int) (C : List Candidate) :
    dedupScenarios embed (dedupScenarios embed C) = dedupScenarios embed C ∧
    dedupScenarios embed C = dedupScenarios embed C := by
  refine ⟨?_, rfl⟩
  show candEmbedPass embed (titlePass (candEmbedPass embed (titlePass C))) =
    candEmbedPass embed (titlePass C)
  have h1 : titlePass (candEmbedPass embed (titlePass C)) = candEmbedPass embed (titlePass C) := by
    apply dedupBy_eq_self_of_pairwise
    exact (dedupBy_pairwise simTitle C).sublist
      (dedupBy_sublist (fun a b => cosineGE92 (embed (candText a)) (embed (candText b)))
        (titlePass C))
  rw [h1]
  exact dedupBy_idem _ _

/-- C6: whenever the Token Budget Estimator returns an output-token ceiling,
that ceiling plus the estimated input token count never exceeds the model
context window; and whenever the computed ceiling falls below the minimum
viable output size, the estimator fails fast with `PromptTooLarge`. -/
theorem estimate_token_ceiling (prompt : String) (ctx : Nat) :
    (∀ n, estimate prompt ctx = Except.ok n → n + estimatedInputTokens prompt ≤ ctx) ∧
    ((ctx - estimatedInputTokens prompt) * (100 - safetyMarginPercent) / 100 <
        minViableOutputTokens →
      estimate prompt ctx = Except.error ApiError.promptTooLarge) := by
  constructor
  · intro n h
    unfold estimate at h
    split at h
    · cases h
    · rename_i hc
      have hn : (ctx - estimatedInputTokens prompt) * (100 - safetyMarginPercent) / 100 = n :=
        (Except.ok.injEq _ _).mp h
      have h85 : (ctx - estimatedInputTokens prompt) * (100 - safetyMarginPercent) / 100 ≤
          ctx - estimatedInputTokens prompt := by
        calc (ctx - estimatedInputTokens prompt) * (100 - safetyMarginPercent) / 100
            ≤ (ctx - estimatedInputTokens prompt) * 100 / 100 := by
              apply Nat.div_le_div_right
              exact Nat.mul_le_mul_left _ (by simp [safetyMarginPercent])
          _ = ctx - estimatedInputTokens prompt := Nat.mul_div_cancel _ (by norm_num)
      have hmin : ¬ ((ctx - estimatedInputTokens prompt) * (100 - safetyMarginPercent) / 100 <
          minViableOutputTokens) := hc
      simp only [minViableOutputTokens] at hmin
      omega
  · intro h
    unfold estimate
    simp only [h, if_pos]

/-- Witness for `estimate_token_ceiling` at concrete inputs. -/
theorem estimate_token_ceiling_witness :
    8499 + estimatedInputTokens "hi" ≤ 10000 ∧
    estimate "a" 100 = Except.error ApiError.promptTooLarge :=
  ⟨(estimate_token_ceiling "hi" 10000).1 8499 rfl,
   (estimate_token_ceiling "a" 100).2 (by decide)⟩

/-! ## Reachability invariant for the batch status -/

theorem step_status_consistent (s t : BatchState) (h : Step s t) :
    t.status = computeBatchStatus t.features := by
  cases h <;> rfl

theorem reachable_status_consistent (bid : String) (cfgs : List FeatureConfigPayload)
    (s : BatchState) (h : Relation.ReflTransGen Step (startBatch bid cfgs) s) :
    s.status = computeBatchStatus s.features := by
  induction h with
  | refl => rfl
  | tail _ hstep _ => exact step_status_consistent _ _ hstep

theorem computeBatchStatus_cases (frs : List FeatureResult) :
    (computeBatchStatus frs = BStatus.completed ↔
      ∀ fr ∈ frs, fr.status = FStatus.completed) ∧
    (computeBatchStatus frs = BStatus.partialDone ↔
      ((∃ fr ∈ frs, fr.status = FStatus.failed) ∧
       ∀ fr ∈ frs, fr.status ≠ FStatus.pending ∧ fr.status ≠ FStatus.generating)) ∧
    ((¬ ∀ fr ∈ frs, fr.status = FStatus.completed) →
     (¬ ((∃ fr ∈ frs, fr.status = FStatus.failed) ∧
        ∀ fr ∈ frs, fr.status ≠ FStatus.pending ∧ fr.status ≠ FStatus.generating)) →
     computeBatchStatus frs = BStatus.running) := by
  unfold computeBatchStatus
  split_ifs with h1 h2
  · refine ⟨⟨fun _ => h1, fun _ => rfl⟩, ⟨fun hp => ?_, fun hp => ?_⟩, fun hn _ => absurd h1 hn⟩
    · cases hp
    · rcases hp.1 with ⟨fr, hfr, hst⟩
      rw [h1 fr hfr] at hst
      cases hst
  · refine ⟨⟨fun hc => ?_, fun hc => absurd hc h1⟩,
      ⟨fun _ => h2, fun _ => rfl⟩, fun _ hn => absurd h2 hn⟩
    cases hc
  · refine ⟨⟨fun hc => ?_, fun hc => absurd hc h1⟩,
      ⟨fun hc => ?_, fun hc => absurd hc h2⟩, fun _ _ => rfl⟩
    · cases hc
    · cases hc

/-- C1: in every batch state reachable from `startBatch`, the stored overall
status is exactly the pure function of the feature statuses: `completed` iff
every feature is `completed`; `partial` iff at least one feature is `failed`
and none is `pending` or `generating`; `running` in every other case. -/
theorem batchStatus_pure_function (bid : String) (cfgs : List FeatureConfigPayload)
    (s : BatchState) (h : Relation.ReflTransGen Step (startBatch bid cfgs) s) :
    (s.status = BStatus.completed ↔ ∀ fr ∈ s.features, fr.status = FStatus.completed) ∧
    (s.status = BStatus.partialDone ↔
      ((∃ fr ∈ s.features, fr.status = FStatus.failed) ∧
       ∀ fr ∈ s.features, fr.status ≠ FStatus.pending ∧ fr.status ≠ FStatus.generating)) ∧
    ((¬ ∀ fr ∈ s.features, fr.status = FStatus.completed) →
     (¬ ((∃ fr ∈ s.features, fr.status = FStatus.failed) ∧
        ∀ fr ∈ s.features, fr.status ≠ FStatus.pending ∧ fr.status ≠ FStatus.generating)) →
     s.status = BStatus.running) := by
  rw [reachable_status_consistent bid cfgs s h]
  exact computeBatchStatus_cases s.features

/-- Witness for `batchStatus_pure_function`, at the freshly started
single-feature batch. -/
theorem batchStatus_pure_function_witness :
    ((startBatch "w" [{ feature_name := "F", feature_description := "d" }]).status =
        BStatus.completed ↔
      ∀ fr ∈ (startBatch "w" [{ feature_name := "F", feature_description := "d" }]).features,
        fr.status = FStatus.completed) :=
  (batchStatus_pure_function "w" [{ feature_name := "F", feature_description := "d" }] _
    Relation.ReflTransGen.refl).1

/-! ## Per-slot transitions -/

theorem setSlot_transition (s : BatchState) (i : Nat) (g : FeatureResult → FeatureResult)
    (j : Nat) (fa fb : FeatureResult) (hfa : s.features[j]? = some fa)
    (hfb : (setSlot s i g).features[j]? = some fb) : fb = fa ∨ (j = i ∧ fb = g fa) := by
  by_cases hj : j = i
  · subst hj
    rw [setSlot, getElem?_updateAt_eq, hfa] at hfb
    right
    exact ⟨rfl, (Option.some.injEq _ _).mp hfb.symm⟩
  · left
    rw [setSlot, getElem?_updateAt_ne _ _ _ _ hj, hfa] at hfb
    exact ((Option.some.injEq _ _).mp hfb.symm)

/-- C7: along every orchestrator step, each feature's status either stays
put or moves forward along `pending → generating → (completed | failed)`,
with the explicit retry edge `failed → generating` as the single exception;
no other backward transition is possible. -/
theorem featureStatus_monotonic (s t : BatchState) (hst : Step s t) :
    t.features.length = s.features.length ∧
    ∀ (i : Nat) (fa fb : FeatureResult),
      s.features[i]? = some fa → t.features[i]? = some fb →
      allowedTransition fa.status fb.status := by
  cases hst with
  | start i fr h hp =>
    refine ⟨updateAt_length _ _ _, fun j fa fb hfa hfb => ?_⟩
    rcases setSlot_transition s i markGenerating j fa fb hfa hfb with he | ⟨hji, he⟩
    · exact Or.inl (by rw [he])
    · subst hji
      have : fa = fr := by rw [hfa] at h; exact (Option.some.injEq _ _).mp h
      subst this
      exact Or.inr (Or.inl ⟨hp, by rw [he]; rfl⟩)
  | complete i fr items h hp =>
    refine ⟨updateAt_length _ _ _, fun j fa fb hfa hfb => ?_⟩
    rcases setSlot_transition s i (completeUpdate items) j fa fb hfa hfb with he | ⟨hji, he⟩
    · exact Or.inl (by rw [he])
    · subst hji
      have : fa = fr := by rw [hfa] at h; exact (Option.some.injEq _ _).mp h
      subst this
      exact Or.inr (Or.inr (Or.inl ⟨hp, by rw [he]; rfl⟩))
  | fail i fr msg h hp =>
    refine ⟨updateAt_length _ _ _, fun j fa fb hfa hfb => ?_⟩
    rcases setSlot_transition s i (failUpdate msg) j fa fb hfa hfb with he | ⟨hji, he⟩
    · exact Or.inl (by rw [he])
    · subst hji
      have : fa = fr := by rw [hfa] at h; exact (Option.some.injEq _ _).mp h
      subst this
      exact Or.inr (Or.inr (Or.inr (Or.inl ⟨hp, by rw [he]; rfl⟩)))
  | retryStep i fr h hp =>
    refine ⟨updateAt_length _ _ _, fun j fa fb hfa hfb => ?_⟩
    rcases setSlot_transition s i retryUpdate j fa fb hfa hfb with he | ⟨hji, he⟩
    · exact Or.inl (by rw [he])
    · subst hji
      have : fa = fr := by rw [hfa] at h; exact (Option.some.injEq _ _).mp h
      subst this
      exact Or.inr (Or.inr (Or.inr (Or.inr ⟨hp, by rw [he]; rfl⟩)))
  | deleteCase i fr tid h hp =>
    refine ⟨updateAt_length _ _ _, fun j fa fb hfa hfb => ?_⟩
    rcases setSlot_transition s i (deleteUpdate tid) j fa fb hfa hfb with he | ⟨hji, he⟩
    · exact Or.inl (by rw [he])
    · exact Or.inl (by rw [he]; rfl)

/-- Witness for `featureStatus_monotonic`: the opening step of the demo batch
takes feature 0 along the `pending → generating` edge. -/
theorem featureStatus_monotonic_witness :
    (setSlot demo0 0 markGenerating).features.length = demo0.features.length ∧
    allowedTransition FStatus.pending FStatus.generating := by
  have h := featureStatus_monotonic demo0 _
    (Step.start demo0 0 ⟨"0", "A", FStatus.pending, none, none⟩ rfl rfl)
  exact ⟨h.1, h.2 0 ⟨"0", "A", FStatus.pending, none, none⟩
    (markGenerating ⟨"0", "A", FStatus.pending, none, none⟩) rfl rfl⟩

/-- C2: a provider failure inside one feature's pipeline is recorded on that
feature's slot alone — the slot becomes `failed` with the error message, all
sibling slots are untouched and the batch keeps all its features — and in the
concrete three-feature run where exactly one feature fails, the two siblings
reach `completed` and the batch reaches `partial`. -/
theorem featureFailure_isolated :
    (∀ (s : BatchState) (i : Nat) (fr : FeatureResult) (msg : String),
        s.features[i]? = some fr →
        ((setSlot s i (failUpdate msg)).features[i]? =
            some { fr with status := FStatus.failed, items := none, error := some msg }) ∧
        (∀ j, j ≠ i → (setSlot s i (failUpdate msg)).features[j]? = s.features[j]?) ∧
        (setSlot s i (failUpdate msg)).features.length = s.features.length) ∧
    Relation.ReflTransGen Step demo0 demo6 ∧
    demo6.features.map FeatureResult.status =
      [FStatus.completed, FStatus.failed, FStatus.completed] ∧
    demo6.status = BStatus.partialDone ∧
    (demo6.features[1]?).map FeatureResult.error = some (some "provider unavailable") := by
  refine ⟨?_, ?_, rfl, rfl, rfl⟩
  · intro s i fr msg h
    refine ⟨?_, fun j hj => ?_, updateAt_length _ _ _⟩
    · rw [setSlot, getElem?_updateAt_eq, h]
      rfl
    · rw [setSlot, getElem?_updateAt_ne _ _ _ _ hj]
  · have t1 : Step demo0 demo1 :=
      Step.start demo0 0 ⟨"0", "A", FStatus.pending, none, none⟩ rfl rfl
    have t2 : Step demo1 demo2 :=
      Step.start demo1 1 ⟨"1", "B", FStatus.pending, none, none⟩ rfl rfl
    have t3 : Step demo2 demo3 :=
      Step.start demo2 2 ⟨"2", "C", FStatus.pending, none, none⟩ rfl rfl
    have t4 : Step demo3 demo4 :=
      Step.complete demo3 0 ⟨"0", "A", FStatus.generating, none, none⟩ [demoCaseA] rfl rfl
    have t5 : Step demo4 demo5 :=
      Step.fail demo4 1 ⟨"1", "B", FStatus.generating, none, none⟩ "provider unavailable"
        rfl rfl
    have t6 : Step demo5 demo6 :=
      Step.complete demo5 2 ⟨"2", "C", FStatus.generating, none, none⟩ [demoCaseC] rfl rfl
    exact Relation.ReflTransGen.head t1 (Relation.ReflTransGen.head t2
      (Relation.ReflTransGen.head t3 (Relation.ReflTransGen.head t4
        (Relation.ReflTransGen.head t5 (Relation.ReflTransGen.head t6
          Relation.ReflTransGen.refl)))))

/-- Witness for `featureFailure_isolated`: failing feature 1 of the running
demo batch leaves feature 0's slot untouched. -/
theorem featureFailure_isolated_witness :
    (setSlot demo3 1 (failUpdate "boom")).features[0]? = demo3.features[0]? := by
  have h := featureFailure_isolated.1 demo3 1 ⟨"1", "B", FStatus.generating, none, none⟩
    "boom" rfl
  exact h.2.1 0 (by decide)

/-- C3: `retryFeature` succeeds exactly when the addressed feature's current
status is `failed`, in which case it resets only that slot to `generating`
and leaves every other feature and every other batch untouched; an unknown
batch id, an unknown feature id, or a feature in `pending`/`generating`/
`completed` state yields `InvalidState` and no new state. -/
theorem retryFeature_semantics (orch : Orch) (bid fid : String) :
    (orch.findIdx? (fun p => decide (p.1 = bid)) = none →
      retryFeature orch bid fid = Except.error ApiError.invalidState) ∧
    (∀ (k : Nat) (pb : String × BatchState),
      orch.findIdx? (fun p => decide (p.1 = bid)) = some k → orch[k]? = some pb →
      (pb.2.features.findIdx? (fun f => decide (f.feature_id = fid)) = none →
        retryFeature orch bid fid = Except.error ApiError.invalidState) ∧
      (∀ (i : Nat) (fr : FeatureResult),
        pb.2.features.findIdx? (fun f => decide (f.feature_id = fid)) = some i →
        pb.2.features[i]? = some fr →
        (fr.status ≠ FStatus.failed →
          retryFeature orch bid fid = Except.error ApiError.invalidState) ∧
        (fr.status = FStatus.failed →
          retryFeature orch bid fid = Except.ok (retrySuccessor orch k i) ∧
          (retrySuccessor orch k i).length = orch.length ∧
          (∀ j, j ≠ k → (retrySuccessor orch k i)[j]? = orch[j]?) ∧
          (retrySuccessor orch k i)[k]? = some (pb.1, setSlot pb.2 i retryUpdate) ∧
          (setSlot pb.2 i retryUpdate).features[i]? = some (retryUpdate fr) ∧
          (retryUpdate fr).status = FStatus.generating ∧
          (∀ j, j ≠ i →
            (setSlot pb.2 i retryUpdate).features[j]? = pb.2.features[j]?)))) := by
  constructor
  · intro h
    simp only [retryFeature, h]
  · intro k pb hk hpb
    constructor
    · intro hf
      simp only [retryFeature, hk, hpb, hf]
    · intro i fr hi hfr
      constructor
      · intro hne
        simp only [retryFeature, hk, hpb, hi, hfr, if_neg hne]
      · intro hfail
        refine ⟨?_, updateAt_length _ _ _, fun j hj => getElem?_updateAt_ne _ _ _ _ hj,
          ?_, ?_, rfl, fun j hj => getElem?_updateAt_ne _ _ _ _ hj⟩
        · simp only [retryFeature, hk, hpb, hi, hfr, if_pos hfail]
        · rw [retrySuccessor, getElem?_updateAt_eq, hpb]
          rfl
        · rw [setSlot, getElem?_updateAt_eq, hfr]
          rfl

/-- Witness for `retryFeature_semantics`: retrying the failed feature `f0` of
the witness orchestrator succeeds and rewrites only that slot; retrying an
unknown feature id fails with `InvalidState`. -/
theorem retryFeature_semantics_witness :
    retryFeature wOrch "b1" "f0" = Except.ok (retrySuccessor wOrch 0 0) ∧
    (setSlot wBatch 0 retryUpdate).features[1]? = wBatch.features[1]? ∧
    retryFeature wOrch "b1" "zz" = Except.error ApiError.invalidState := by
  have h := retryFeature_semantics wOrch "b1" "f0"
  have hz := retryFeature_semantics wOrch "b1" "zz"
  have hs := ((h.2 0 ("b1", wBatch) rfl rfl).2 0 wFr0 rfl rfl).2 rfl
  exact ⟨hs.1, hs.2.2.2.2.2.2 1 (by decide), (hz.2 0 ("b1", wBatch) rfl rfl).1 rfl⟩

/-- The length of the complementary filter plus the number of matches is the
original length. -/
theorem filter_not_countP_length (l : List α) (p : α → Prop) [DecidablePred p] :
    (l.filter fun a => decide (¬ p a)).length + (l.countP fun a => decide (p a)) =
      l.length := by
  induction l with
  | nil => rfl
  | cons a l ih =>
    simp only [decide_not] at ih ⊢
    by_cases h : p a
    · simp [List.filter_cons, List.countP_cons, h]
      omega
    · simp [List.filter_cons, List.countP_cons, h]
      omega

/-- C4: `deleteResult` on a test case id held by some feature removes exactly
that test case — the holding slot's list is filtered to drop the id (the id
is absent afterwards, and when the id occurred exactly once the length drops
by exactly one), its status is unchanged — while every feature not holding
the id, and every batch, keeps its slot contents unchanged. -/
theorem deleteResult_semantics (orch : Orch) (tid : String) :
    ((orch.any fun p => p.2.features.any fun fr => containsCase fr tid) = false →
      deleteResult orch tid = Except.error ApiError.invalidState) ∧
    ((orch.any fun p => p.2.features.any fun fr => containsCase fr tid) = true →
      deleteResult orch tid = Except.ok (deleteSuccessor orch tid)) ∧
    ((deleteSuccessor orch tid).length = orch.length) ∧
    (∀ (k : Nat) (pb : String × BatchState), orch[k]? = some pb →
      (deleteSuccessor orch tid)[k]? = some (pb.1, batchDelete pb.2 tid)) ∧
    (∀ (bs : BatchState) (i : Nat) (fr : FeatureResult),
      bs.features[i]? = some fr → containsCase fr tid = false →
      (batchDelete bs tid).features[i]? = some fr) ∧
    (∀ (bs : BatchState) (i : Nat) (fr : FeatureResult) (l : List TestCaseItem),
      bs.features[i]? = some fr → fr.items = some l → containsCase fr tid = true →
      (batchDelete bs tid).features[i]? = some (deleteUpdate tid fr) ∧
      (deleteUpdate tid fr).status = fr.status ∧
      (deleteUpdate tid fr).items = some (l.filter fun tc => decide (¬ tc.id = tid)) ∧
      (∀ tc ∈ l.filter (fun tc => decide (¬ tc.id = tid)), ¬ tc.id = tid) ∧
      ((l.countP fun tc => decide (tc.id = tid)) = 1 →
        (l.filter fun tc => decide (¬ tc.id = tid)).length + 1 = l.length)) := by
  refine ⟨?_, ?_, by simp [deleteSuccessor], ?_, ?_, ?_⟩
  · intro h
    unfold deleteResult
    rw [h]
    rfl
  · intro h
    unfold deleteResult
    rw [h]
    rfl
  · intro k pb hpb
    rw [deleteSuccessor, List.getElem?_map, hpb]
    rfl
  · intro bs i fr hfr hnc
    show (bs.features.map fun fr =>
      if containsCase fr tid then deleteUpdate tid fr else fr)[i]? = some fr
    rw [List.getElem?_map, hfr]
    simp [hnc]
  · intro bs i fr l hfr hitems hc
    refine ⟨?_, rfl, ?_, ?_, ?_⟩
    · show (bs.features.map fun fr =>
        if containsCase fr tid then deleteUpdate tid fr else fr)[i]? =
        some (deleteUpdate tid fr)
      rw [List.getElem?_map, hfr]
      simp [hc]
    · rw [deleteUpdate, hitems]
      rfl
    · intro tc htc
      have := (List.mem_filter.mp htc).2
      exact of_decide_eq_true this
    · intro hcount
      have := filter_not_countP_length l (fun tc => tc.id = tid)
      rw [hcount] at this
      exact this

/-- Witness for `deleteResult_semantics`: deleting `tc1` from the witness
orchestrator succeeds, and the holding slot keeps its status while its list
is filtered down to `tc2` alone. -/
theorem deleteResult_semantics_witness :
    deleteResult dOrch "tc1" = Except.ok (deleteSuccessor dOrch "tc1") ∧
    (deleteUpdate "tc1" dFr0).status = dFr0.status ∧
    (deleteUpdate "tc1" dFr0).items =
      some ([dCase1, dCase2].filter fun tc => decide (¬ tc.id = "tc1")) ∧
    ([dCase1, dCase2].filter fun tc => decide (¬ tc.id = "tc1")).length + 1 =
      ([dCase1, dCase2] : List TestCaseItem).length := by
  have h := deleteResult_semantics dOrch "tc1"
  have h6 := h.2.2.2.2.2 dBatch 0 dFr0 [dCase1, dCase2] rfl rfl rfl
  exact ⟨h.2.1 rfl, h6.2.1, h6.2.2.1, h6.2.2.2.2 rfl⟩

/-- C8: in the two-feature low-coverage scenario (1 layer, 3 titles), feature
A's provider titles are pairwise distinct and its expanded result has exactly
3 test cases, while feature B's provider response contains 2 titles that
normalize to the same string, the title pass removes that duplicate before
expansion (2 candidates reach pass 2), and B's expanded result has exactly 2
test cases. -/
theorem scenario_titleDedup_before_expansion :
    normTitle "Verify login" = normTitle "Check login" ∧
    (titlePass (providerScenario.generateTitles descB "core flow" 3)).length = 2 ∧
    Except.map List.length
      (twoPassGenerate providerScenario embedScenario 128000 descA CoverageLevel.low) =
      Except.ok 3 ∧
    Except.map List.length
      (twoPassGenerate providerScenario embedScenario 128000 descB CoverageLevel.low) =
      Except.ok 2 :=
  ⟨rfl, rfl, rfl, rfl⟩

theorem optionGetD_blank (v : Option String) : v.getD "" = blankIfNullish v := by
  cases v <;> rfl

/-- C9: `itemToExportPayload` produces exactly the record the claim
describes — `testSteps` is the array joined with `" | "` (otherwise
`String(test_steps ?? "")`), and every other exported field is the source
field with null or undefined replaced by the empty string. -/
theorem itemToExportPayload_matches_claim (t : TestCaseItemJs) :
    itemToExportPayload t = exportPayloadClaim t := by
  unfold itemToExportPayload exportPayloadClaim stepsText
  rw [optionGetD_blank, optionGetD_blank, optionGetD_blank, optionGetD_blank,
    optionGetD_blank]

/-! ## Lemmas about `handleError`'s detail-array traversal -/

theorem entryMsg_of_not_null (d : Json) (h : isNull d = false) :
    entryMsg d = Except.ok (msgText d) := by
  cases d with
  | null => simp [isNull] at h
  | bool b => rfl
  | num raw => rfl
  | str s => rfl
  | arr xs => rfl
  | obj fields => rfl

theorem mapEntries_no_null (xs : List Json) (h : xs.any isNull = false) :
    mapEntries xs = Except.ok (xs.map msgText) := by
  induction xs with
  | nil => rfl
  | cons d ds ih =>
    rw [List.any_cons, Bool.or_eq_false_iff] at h
    simp only [mapEntries, entryMsg_of_not_null d h.1, ih h.2, List.map_cons]

theorem mapEntries_has_null (xs : List Json) (h : xs.any isNull = true) :
    mapEntries xs = Except.error () := by
  induction xs with
  | nil => simp at h
  | cons d ds ih =>
    rw [List.any_cons] at h
    cases hd : isNull d with
    | true =>
      cases d with
      | null => rfl
      | bool b => simp [isNull] at hd
      | num raw => simp [isNull] at hd
      | str s => simp [isNull] at hd
      | arr ys => simp [isNull] at hd
      | obj fields => simp [isNull] at hd
    | false =>
      rw [hd, Bool.false_or] at h
      simp only [mapEntries, entryMsg_of_not_null d hd, ih h]

set_option maxRecDepth 16384 in
/-- C10 (counterexample to the claim as stated): for the non-empty body
`"{}"` — valid JSON whose `detail` is neither a string nor an array —
`handleError` throws the default `Request failed (500)` message, not the
first 200 characters of the raw body that the claim prescribes for a
non-empty body that is not such JSON. -/
theorem handleError_claim_counterexample :
    handleError 500 "\x7b\x7d" = Except.error "Request failed (500)" ∧
    ("\x7b\x7d" : String) ≠ "" ∧
    ("\x7b\x7d" : String).take 200 = "\x7b\x7d" ∧
    handleError 500 "\x7b\x7d" ≠ Except.error (("\x7b\x7d" : String).take 200) := by
  refine ⟨rfl, by decide, by decide, fun hc => ?_⟩
  injection hc with h1
  exact absurd h1 (by decide)

/-- C10 (amended): `handleError` always throws, and the thrown message is:
the body's `detail` when it parses as JSON with a string `detail`; the `msg`
fields of the entries (missing or null `msg` as the empty string) joined by
`"; "` when `detail` is an array without null entries; the first 200
characters of the raw body when the body is non-empty and `JSON.parse` or a
property access throws (unparsable body, body parsing to `null`, or a null
`detail` entry); and `Request failed (<status>)` when the body is empty in
those throwing cases or when the body parses as JSON whose `detail` is
neither a string nor an array. -/
theorem handleError_message_characterization (status : Nat) (body : String) :
    handleError status body = Except.error (specMessage status body) := by
  show Except.error (errMessage status body) = Except.error (specMessage status body)
  congr 1
  unfold errMessage tryMessage specMessage
  cases hj : jsonParse body with
  | none => rfl
  | some j =>
    cases j with
    | null => rfl
    | bool b => rfl
    | num raw => rfl
    | str s => rfl
    | arr xs => rfl
    | obj fields =>
      cases hd : lookupLast fields "detail" with
      | none => simp [getProp, propLookup, hd]
      | some d =>
        cases d with
        | null => simp [getProp, propLookup, hd]
        | bool b => simp [getProp, propLookup, hd]
        | num raw => simp [getProp, propLookup, hd]
        | str s => simp [getProp, propLookup, hd]
        | obj fs => simp [getProp, propLookup, hd]
        | arr xs =>
          cases hn : xs.any isNull with
          | true => simp [getProp, propLookup, hd, mapEntries_has_null xs hn, hn]
          | false => simp [getProp, propLookup, hd, mapEntries_no_null xs hn, hn]

end QAMP
